import Mathlib

/-!
Verification of the budget-allocation core of `src/trip-mentor/src/components/BudgetPlanner.tsx`.

Modelling conventions:
* JavaScript numbers are modelled as integers (`ℤ`) for the stored fields (all values stored in
  the component state are produced by `parseInt` or `Math.round`, hence integral) and as
  rationals (`ℚ`) for the intermediate arithmetic; `Math.round` is `jsRound q = ⌊q + 1/2⌋`
  (round half toward positive infinity), which is JavaScript's rounding rule.
* The React `useState` setters (`setCategories`, `setTotalBudget`, ...) are modelled as
  assignments to the component state applied in program order, with later reads in the same
  handler seeing the assigned value — the data flow the handlers' own comments describe
  ("Update monetary amounts based on the new percentages").
* `parseInt(x) || d` on a text input is modelled on the already-parsed value as
  `Option ℤ → ℤ` (`none` standing for `NaN`): `none` and `0` fall back to the default `d`,
  every other integer (negative ones included) is kept.
-/

/-- JavaScript `Math.round`: round to the nearest integer, halves toward positive infinity. -/
def jsRound (q : ℚ) : ℤ := ⌊q + 1/2⌋

/-- JS `parseInt(value) || default`: `NaN` (unparseable, modelled `none`) and `0` are falsy and
fall back to the default; any other integer — negative ones included — is kept. -/
def parseIntOr (d : ℤ) : Option ℤ → ℤ
  | none => d
  | some n => if n = 0 then d else n

/-- The `BudgetCategory` interface of `BudgetPlanner.tsx`. -/
structure BudgetCategory where
  id : String
  name : String
  amount : ℤ
  percentage : ℤ
deriving DecidableEq

/-- The `CurrencyCode` union type (`'USD' | 'INR'`). -/
inductive CurrencyCode where
  | USD
  | INR
deriving DecidableEq

/-- The fixed exchange rate `exchangeRates.INR = 83.14` of `BudgetPlanner.tsx`. -/
def exchangeRateINR : ℚ := 8314 / 100

/-- The component state of `BudgetPlanner` that the budget allocator reads and writes. -/
structure PlannerState where
  totalBudget : ℤ
  duration : ℤ
  currency : CurrencyCode
  categories : List BudgetCategory
deriving DecidableEq

/-- The seeded default category set (`useState` initialiser, lines 43–50). -/
def initialCategories : List BudgetCategory :=
  [⟨"1", "Accommodation", 0, 35⟩,
   ⟨"2", "Food & Drinks", 0, 25⟩,
   ⟨"3", "Transportation", 0, 15⟩,
   ⟨"4", "Activities", 0, 15⟩,
   ⟨"5", "Shopping", 0, 5⟩,
   ⟨"6", "Miscellaneous", 0, 5⟩]

/-- The initial component state: `totalBudget = 0`, `duration = 7`, `currency = 'USD'`,
and the seeded default categories. -/
def initialState : PlannerState :=
  ⟨0, 7, CurrencyCode.USD, initialCategories⟩

/-- Sum of the `percentage` fields of a category list
(the `reduce((sum, cat) => sum + cat.percentage, 0)` pattern of the source). -/
def sumPct (cats : List BudgetCategory) : ℤ :=
  (cats.map (·.percentage)).sum

/-- Source `updateCategoryAmounts` (lines 68–79): recompute each category's `amount` as
`Math.round((category.percentage / 100) * budget)`. -/
def updateCategoryAmounts (budget : ℤ) (cats : List BudgetCategory) : List BudgetCategory :=
  cats.map fun category =>
    { category with amount := jsRound ((category.percentage : ℚ) / 100 * (budget : ℚ)) }

/-- Source `handleBudgetChange` (lines 82–87) after parsing: store the value as `totalBudget` and
recompute all category amounts from it. -/
def handleBudgetChange (value : ℤ) (s : PlannerState) : PlannerState :=
  { s with totalBudget := value, categories := updateCategoryAmounts value s.categories }

/-- Source `handleBudgetChange` on the raw text input: `parseInt(e.target.value) || 0`. -/
def handleBudgetInput (raw : Option ℤ) (s : PlannerState) : PlannerState :=
  handleBudgetChange (parseIntOr 0 raw) s

/-- Source `handleDurationChange` (lines 95–98): `const value = parseInt(e.target.value) || 1;
setDuration(value)`. -/
def handleDurationChange (raw : Option ℤ) (s : PlannerState) : PlannerState :=
  { s with duration := parseIntOr 1 raw }

/-- Step 1 of `handlePercentageChange` (lines 103–107): assign the requested percentage to
the category whose `id` matches, leaving every other category untouched. No clamping. -/
def assignPercentage (id : String) (newPercentage : ℤ) (cats : List BudgetCategory) :
    List BudgetCategory :=
  cats.map fun category =>
    if category.id = id then { category with percentage := newPercentage } else category

/-- Steps 2–4 of `handlePercentageChange` (lines 109–139): if the total is not 100, adjust
every other category proportionally to its share of the others' total, clamping each adjusted
value at 0 via `Math.max(0, Math.round(...))`; the pass is skipped when there is no other
category, and an individual category is left unchanged when the others' total is 0. -/
def proportionalAdjust (id : String) (cats : List BudgetCategory) : List BudgetCategory :=
  let totalPercentage := sumPct cats
  if totalPercentage ≠ 100 then
    let adjustment := 100 - totalPercentage
    let categoriesToAdjust := cats.filter fun cat => cat.id != id
    if 0 < categoriesToAdjust.length then
      let otherCategoriesTotal := sumPct categoriesToAdjust
      cats.map fun category =>
        if category.id = id then category
        else if otherCategoriesTotal = 0 then category
        else
          { category with
              percentage :=
                max 0 (jsRound ((category.percentage : ℚ) +
                  (adjustment : ℚ) * ((category.percentage : ℚ) / (otherCategoriesTotal : ℚ)))) }
    else cats
  else cats

/-- The in-place `adjustmentCategory.percentage += residual` on the element returned by
`updatedCategories.find(cat => cat.id !== id)`: add the residual to the first category in
list order whose `id` differs from the edited one. -/
def addResidualFirst (id : String) (residual : ℤ) : List BudgetCategory → List BudgetCategory
  | [] => []
  | c :: cs =>
    if c.id = id then c :: addResidualFirst id residual cs
    else { c with percentage := c.percentage + residual } :: cs

/-- Step 5 of `handlePercentageChange` (lines 141–149): if the total still differs from 100,
add the whole residual to the first category that is not the edited one
(`find(cat => cat.id !== id) || updatedCategories[0]`, then `percentage += (100 - finalTotal)`).
-/
def residualFix (id : String) (cats : List BudgetCategory) : List BudgetCategory :=
  let finalTotal := sumPct cats
  if finalTotal ≠ 100 then
    match cats.find? (fun cat => cat.id != id) with
    | some _ => addResidualFirst id (100 - finalTotal) cats
    | none =>
      match cats with
      | [] => []
      | c :: cs => { c with percentage := c.percentage + (100 - finalTotal) } :: cs
  else cats

/-- The pure category-list transformation performed by `handlePercentageChange`
(steps 1–5, lines 101–149). -/
def rebalance (id : String) (newPercentage : ℤ) (cats : List BudgetCategory) :
    List BudgetCategory :=
  residualFix id (proportionalAdjust id (assignPercentage id newPercentage cats))

/-- Source `handlePercentageChange` (lines 101–154): rebalance the percentages, then
`updateCategoryAmounts(totalBudget)` recomputes every amount from the new percentages. -/
def handlePercentageChange (id : String) (newPercentage : ℤ) (s : PlannerState) : PlannerState :=
  { s with categories := updateCategoryAmounts s.totalBudget (rebalance id newPercentage s.categories) }

/-- Source `handleAmountChange` (lines 157–166): no-op when `totalBudget <= 0`; otherwise convert the
amount to a percentage via `Math.round((newAmount / totalBudget) * 100)` and delegate to
`handlePercentageChange`. -/
def handleAmountChange (id : String) (newAmount : ℤ) (s : PlannerState) : PlannerState :=
  if s.totalBudget ≤ 0 then s
  else handlePercentageChange id (jsRound ((newAmount : ℚ) / (s.totalBudget : ℚ) * 100)) s

/-- One user-driven mutation of the allocator state. -/
inductive BudgetOp where
  | setBudget (value : ℤ)
  | setPct (id : String) (p : ℤ)
  | setAmt (id : String) (a : ℤ)
deriving DecidableEq

/-- Apply a single mutation to the component state. -/
def applyOp : BudgetOp → PlannerState → PlannerState
  | .setBudget v, s => handleBudgetChange v s
  | .setPct id p, s => handlePercentageChange id p s
  | .setAmt id a, s => handleAmountChange id a s

/-- Run a sequence of mutations left to right. -/
def runOps (ops : List BudgetOp) (s : PlannerState) : PlannerState :=
  ops.foldl (fun s op => applyOp op s) s

/-- The per-day figure rendered for a category (line 595):
`Math.round(category.amount / duration)`. -/
def dailyAmount (amount duration : ℤ) : ℤ :=
  jsRound ((amount : ℚ) / (duration : ℚ))

/-- The record returned by `getBudgetLevelIndicator`. -/
structure LevelIndicator where
  level : String
  color : String
  text : String
deriving DecidableEq

/-- The per-category threshold pairs of `getBudgetLevelIndicator` (lines 174–191):
`(low, high)` by category name, with a default of `(15, 50)`. -/
def thresholdsFor (category : String) : ℚ × ℚ :=
  if category = "Accommodation" then (50, 150)
  else if category = "Food & Drinks" then (30, 100)
  else if category = "Transportation" then (10, 50)
  else if category = "Activities" then (20, 80)
  else (15, 50)

/-- Source `getBudgetLevelIndicator` (lines 169–201): normalize the amount to USD, divide by the
duration, and classify against the category's thresholds: strictly below `low` is `Budget`,
strictly above `high` is `Luxury`, otherwise `Standard`. -/
def getBudgetLevelIndicator (amount : ℚ) (category : String) (currency : CurrencyCode)
    (duration : ℚ) : LevelIndicator :=
  let amountUSD := if currency = CurrencyCode.INR then amount / exchangeRateINR else amount
  let dailyAmount := amountUSD / duration
  let thresholds := thresholdsFor category
  if dailyAmount < thresholds.1 then ⟨"low", "text-yellow-600", "Budget"⟩
  else if dailyAmount > thresholds.2 then ⟨"high", "text-green-600", "Luxury"⟩
  else ⟨"medium", "text-blue-600", "Standard"⟩

/-- The `Place` interface of `BudgetPlanner.tsx` (optional fields as `Option`). -/
structure Place where
  id : String
  name : String
  kind : String
  rating : ℚ
  description : String
  imageUrl : String
  price_level : Option ℤ
  vicinity : Option String
deriving DecidableEq

/-- Source expression `categories.find(c => c.name === 'Activities')?.amount || 0`
(lines 212 and 257). -/
def activitiesAmount (cats : List BudgetCategory) : ℤ :=
  parseIntOr 0 ((cats.find? fun c => c.name == "Activities").map (·.amount))

/-- The daily activities budget normalized to USD (lines 213–218 and 258–263):
`Math.round(activitiesBudget / duration)`, divided again by the exchange rate and rounded
when the currency is INR. -/
def dailyActivitiesBudgetUSD (cats : List BudgetCategory) (duration : ℤ)
    (currency : CurrencyCode) : ℤ :=
  let daily := jsRound ((activitiesAmount cats : ℚ) / (duration : ℚ))
  if currency = CurrencyCode.INR then jsRound ((daily : ℚ) / exchangeRateINR) else daily

/-- The affordable price level (lines 222–224 and 266–268):
`dailyUSD < 30 ? 1 : dailyUSD < 60 ? 2 : 3`. -/
def affordablePriceLevel (cats : List BudgetCategory) (duration : ℤ)
    (currency : CurrencyCode) : ℤ :=
  if dailyActivitiesBudgetUSD cats duration currency < 30 then 1
  else if dailyActivitiesBudgetUSD cats duration currency < 60 then 2
  else 3

/-- The affordability filter of `fetchSuggestedPlaces` (lines 236–240): an undefined
`price_level` is treated as 0, and a place passes when its level is at most the affordable
level. -/
def passesAffordabilityFilter (affordable : ℤ) (place : Place) : Bool :=
  decide ((place.price_level.getD 0) ≤ affordable)

/-! ### Helper lemmas about the rebalancing pipeline -/

theorem sumPct_cons (c : BudgetCategory) (cs : List BudgetCategory) :
    sumPct (c :: cs) = c.percentage + sumPct cs := by
  simp [sumPct]

theorem map_percentage_updateCategoryAmounts (b : ℤ) (cats : List BudgetCategory) :
    (updateCategoryAmounts b cats).map (·.percentage) = cats.map (·.percentage) := by
  induction cats with
  | nil => rfl
  | cons c cs ih => simp only [updateCategoryAmounts, List.map_cons] at ih ⊢; rw [ih]

theorem sumPct_updateCategoryAmounts (b : ℤ) (cats : List BudgetCategory) :
    sumPct (updateCategoryAmounts b cats) = sumPct cats := by
  unfold sumPct
  rw [map_percentage_updateCategoryAmounts]

theorem length_updateCategoryAmounts (b : ℤ) (cats : List BudgetCategory) :
    (updateCategoryAmounts b cats).length = cats.length := by
  simp [updateCategoryAmounts]

theorem length_assignPercentage (id : String) (p : ℤ) (cats : List BudgetCategory) :
    (assignPercentage id p cats).length = cats.length := by
  simp [assignPercentage]

theorem length_proportionalAdjust (id : String) (cats : List BudgetCategory) :
    (proportionalAdjust id cats).length = cats.length := by
  simp only [proportionalAdjust]
  split_ifs <;> simp

theorem length_addResidualFirst (id : String) (r : ℤ) (cats : List BudgetCategory) :
    (addResidualFirst id r cats).length = cats.length := by
  induction cats with
  | nil => rfl
  | cons c cs ih =>
    simp only [addResidualFirst]
    split_ifs <;> simp [ih]

theorem length_residualFix (id : String) (cats : List BudgetCategory) :
    (residualFix id cats).length = cats.length := by
  simp only [residualFix]
  split_ifs
  · split
    · apply length_addResidualFirst
    · cases cats with
      | nil => rfl
      | cons c cs => simp
  · rfl

theorem sumPct_addResidualFirst (id : String) (r : ℤ) :
    ∀ cats : List BudgetCategory, (∃ c ∈ cats, ¬ c.id = id) →
      sumPct (addResidualFirst id r cats) = sumPct cats + r := by
  intro cats
  induction cats with
  | nil => intro h; simp at h
  | cons c cs ih =>
    intro h
    simp only [addResidualFirst]
    split_ifs with hc
    · have hcs : ∃ d ∈ cs, ¬ d.id = id := by
        obtain ⟨d, hd, hdid⟩ := h
        rcases List.mem_cons.mp hd with rfl | hmem
        · exact absurd hc hdid
        · exact ⟨d, hmem, hdid⟩
      rw [sumPct_cons, sumPct_cons, ih hcs]
      ring
    · rw [sumPct_cons, sumPct_cons]
      show c.percentage + r + sumPct cs = c.percentage + sumPct cs + r
      ring

theorem sumPct_residualFix (id : String) (cats : List BudgetCategory) (h : ¬ cats = []) :
    sumPct (residualFix id cats) = 100 := by
  simp only [residualFix]
  split_ifs with h100
  · split
    · next c heq =>
      have hmem := List.mem_of_find?_eq_some heq
      have hne : ¬ c.id = id := by
        have hp := List.find?_some heq
        simpa using hp
      rw [sumPct_addResidualFirst id _ cats ⟨c, hmem, hne⟩]
      omega
    · cases cats with
      | nil => exact absurd rfl h
      | cons c cs =>
        rw [sumPct_cons]
        show c.percentage + (100 - sumPct (c :: cs)) + sumPct cs = 100
        rw [sumPct_cons]
        ring
  · push_neg at h100
    exact h100

theorem sumPct_handlePercentageChange (id : String) (p : ℤ) (s : PlannerState)
    (h : ¬ s.categories = []) :
    sumPct (handlePercentageChange id p s).categories = 100 := by
  show sumPct (updateCategoryAmounts s.totalBudget (rebalance id p s.categories)) = 100
  rw [sumPct_updateCategoryAmounts]
  unfold rebalance
  apply sumPct_residualFix
  intro hnil
  have h1 : (proportionalAdjust id (assignPercentage id p s.categories)).length
      = s.categories.length := by
    rw [length_proportionalAdjust, length_assignPercentage]
  rw [hnil] at h1
  exact h (List.eq_nil_of_length_eq_zero h1.symm)

theorem length_handlePercentageChange (id : String) (p : ℤ) (s : PlannerState) :
    (handlePercentageChange id p s).categories.length = s.categories.length := by
  show (updateCategoryAmounts s.totalBudget (rebalance id p s.categories)).length = _
  rw [length_updateCategoryAmounts]
  unfold rebalance
  rw [length_residualFix, length_proportionalAdjust, length_assignPercentage]

theorem length_categories_applyOp (op : BudgetOp) (s : PlannerState) :
    (applyOp op s).categories.length = s.categories.length := by
  cases op with
  | setBudget v => exact length_updateCategoryAmounts v s.categories
  | setPct id p => exact length_handlePercentageChange id p s
  | setAmt id a =>
    show (handleAmountChange id a s).categories.length = _
    unfold handleAmountChange
    split_ifs
    · rfl
    · exact length_handlePercentageChange _ _ s

/-- Invariant carried through every allocator call: the category list is nonempty and its
percentages sum to exactly 100. -/
def GoodState (s : PlannerState) : Prop :=
  ¬ s.categories = [] ∧ sumPct s.categories = 100

theorem goodState_applyOp (op : BudgetOp) (s : PlannerState) (h : GoodState s) :
    GoodState (applyOp op s) := by
  obtain ⟨hne, hsum⟩ := h
  have hne2 : ¬ (applyOp op s).categories = [] := by
    intro hnil
    have hlen := length_categories_applyOp op s
    rw [hnil] at hlen
    exact hne (List.eq_nil_of_length_eq_zero hlen.symm)
  refine ⟨hne2, ?_⟩
  cases op with
  | setBudget v =>
    show sumPct (updateCategoryAmounts v s.categories) = 100
    rw [sumPct_updateCategoryAmounts]
    exact hsum
  | setPct id p => exact sumPct_handlePercentageChange id p s hne
  | setAmt id a =>
    show sumPct (handleAmountChange id a s).categories = 100
    unfold handleAmountChange
    split_ifs
    · exact hsum
    · exact sumPct_handlePercentageChange _ _ s hne

theorem goodState_runOps (ops : List BudgetOp) (s : PlannerState) (h : GoodState s) :
    GoodState (runOps ops s) := by
  induction ops generalizing s with
  | nil => exact h
  | cons op ops ih => exact ih (applyOp op s) (goodState_applyOp op s h)

/-- C1: for every sequence of allocator calls (percentage edits, amount edits, budget edits)
starting from the seeded default category set, after each call the percentages sum to exactly
100: the final residual correction of step 5 forces the total back to 100 on every percentage
edit, and the other operations leave the percentages unchanged. -/
theorem claim_C1_sum_to_100 (ops : List BudgetOp) :
    sumPct (runOps ops initialState).categories = 100 :=
  (goodState_runOps ops initialState ⟨by decide, by decide⟩).2

/-! ### Amount consistency -/

theorem mem_updateCategoryAmounts {b : ℤ} {cats : List BudgetCategory} {c : BudgetCategory}
    (hc : c ∈ updateCategoryAmounts b cats) :
    c.amount = jsRound ((c.percentage : ℚ) / 100 * (b : ℚ)) := by
  simp only [updateCategoryAmounts, List.mem_map] at hc
  obtain ⟨c1, _, rfl⟩ := hc
  rfl

/-- Invariant: every category's amount equals `Math.round(percentage / 100 * totalBudget)`
for the current percentage and total budget. -/
def AmountsConsistent (s : PlannerState) : Prop :=
  ∀ c ∈ s.categories, c.amount = jsRound ((c.percentage : ℚ) / 100 * (s.totalBudget : ℚ))

theorem amountsConsistent_handleBudgetChange (v : ℤ) (s : PlannerState) :
    AmountsConsistent (handleBudgetChange v s) := by
  intro c hc
  exact mem_updateCategoryAmounts hc

theorem amountsConsistent_handlePercentageChange (id : String) (p : ℤ) (s : PlannerState) :
    AmountsConsistent (handlePercentageChange id p s) := by
  intro c hc
  exact mem_updateCategoryAmounts hc

theorem amountsConsistent_applyOp (op : BudgetOp) (s : PlannerState)
    (h : AmountsConsistent s) : AmountsConsistent (applyOp op s) := by
  cases op with
  | setBudget v => exact amountsConsistent_handleBudgetChange v s
  | setPct id p => exact amountsConsistent_handlePercentageChange id p s
  | setAmt id a =>
    show AmountsConsistent (handleAmountChange id a s)
    unfold handleAmountChange
    split_ifs
    · exact h
    · exact amountsConsistent_handlePercentageChange _ _ s

theorem amountsConsistent_runOps (ops : List BudgetOp) (s : PlannerState)
    (h : AmountsConsistent s) : AmountsConsistent (runOps ops s) := by
  induction ops generalizing s with
  | nil => exact h
  | cons op ops ih => exact ih (applyOp op s) (amountsConsistent_applyOp op s h)

/-- C3: for every category, after any sequence of allocator calls starting from the seeded
default state, the category's amount equals `Math.round(percentage / 100 * totalBudget)`
computed from its current (post-call) percentage and the current total budget. -/
theorem claim_C3_amount_consistency (ops : List BudgetOp) (c : BudgetCategory)
    (hc : c ∈ (runOps ops initialState).categories) :
    c.amount = jsRound ((c.percentage : ℚ) / 100 *
      ((runOps ops initialState).totalBudget : ℚ)) := by
  apply amountsConsistent_runOps ops initialState _ c hc
  show ∀ d ∈ initialState.categories,
    d.amount = jsRound ((d.percentage : ℚ) / 100 * (initialState.totalBudget : ℚ))
  with_unfolding_all decide

/-- Witness for C3: after setting the total budget to 1000 from the seeded state,
Accommodation holds amount 350 = round(35 / 100 * 1000). -/
theorem claim_C3_witness :
    (⟨"1", "Accommodation", 350, 35⟩ : BudgetCategory).amount =
      jsRound (((⟨"1", "Accommodation", 350, 35⟩ : BudgetCategory).percentage : ℚ) / 100 *
        ((runOps [BudgetOp.setBudget 1000] initialState).totalBudget : ℚ)) :=
  claim_C3_amount_consistency [BudgetOp.setBudget 1000] ⟨"1", "Accommodation", 350, 35⟩
    (by with_unfolding_all decide)

/-! ### Non-negativity of the proportional pass -/

theorem nonneg_assignPercentage (id : String) (p : ℤ) (cats : List BudgetCategory)
    (hp : 0 ≤ p) (h : ∀ c ∈ cats, 0 ≤ c.percentage) :
    ∀ c ∈ assignPercentage id p cats, 0 ≤ c.percentage := by
  intro c hc
  simp only [assignPercentage, List.mem_map] at hc
  obtain ⟨c1, hc1, rfl⟩ := hc
  split_ifs
  · exact hp
  · exact h c1 hc1

theorem nonneg_proportionalAdjust (id : String) (cats : List BudgetCategory)
    (h : ∀ c ∈ cats, 0 ≤ c.percentage) :
    ∀ c ∈ proportionalAdjust id cats, 0 ≤ c.percentage := by
  intro c hc
  simp only [proportionalAdjust] at hc
  split_ifs at hc
  all_goals first
    | exact h c hc
    | (simp only [List.mem_map] at hc
       obtain ⟨c1, hc1, rfl⟩ := hc
       split_ifs
       all_goals first
         | exact h c1 hc1
         | exact le_max_left 0 _)

/-- C2 amended: the proportional pass (steps 1–4) clamps every adjusted percentage at 0 via
`Math.max(0, ...)`, so starting from non-negative percentages and a non-negative requested
value, every category is still non-negative after the pass; the invariant fails as stated
because the residual correction of step 5 is not clamped and can drive the first non-edited
category below zero. -/
theorem claim_C2_amended_proportional_nonneg (id : String) (p : ℤ)
    (cats : List BudgetCategory) (hp : 0 ≤ p) (h : ∀ c ∈ cats, 0 ≤ c.percentage) :
    ∀ c ∈ proportionalAdjust id (assignPercentage id p cats), 0 ≤ c.percentage :=
  nonneg_proportionalAdjust id _ (nonneg_assignPercentage id p cats hp h)

/-- Witness for the amended C2: editing Accommodation to 50 from the seeded defaults, the
proportional pass leaves Food & Drinks at the non-negative value 19. -/
theorem claim_C2_amended_witness :
    0 ≤ (⟨"2", "Food & Drinks", 0, 19⟩ : BudgetCategory).percentage :=
  claim_C2_amended_proportional_nonneg "1" 50 initialCategories (by decide) (by decide)
    ⟨"2", "Food & Drinks", 0, 19⟩ (by with_unfolding_all decide)

/-- C2 counterexample: a five-call sequence of percentage edits, every requested value lying
in [0, 100], drives the Food & Drinks percentage to −1: the residual correction of step 5
pushes the first non-edited category below zero. -/
theorem claim_C2_counterexample :
    ((runOps [BudgetOp.setPct "1" 90, BudgetOp.setPct "1" 94, BudgetOp.setPct "1" 95,
        BudgetOp.setPct "6" 6, BudgetOp.setPct "1" 95] initialState).categories.map
      (fun c => (c.name, c.percentage)))
      = [("Accommodation", 95), ("Food & Drinks", -1), ("Transportation", 1),
         ("Activities", 1), ("Shopping", 1), ("Miscellaneous", 3)] ∧
    (([90, 94, 95, 6, 95] : List ℤ).all (fun p => decide (0 ≤ p ∧ p ≤ 100))) = true := by
  constructor
  · with_unfolding_all decide
  · decide

/-! ### No clamping of the requested percentage -/

/-- C4 amended: the requested percentage is not clamped — immediately after step 1 the edited
category's percentage equals the requested value exactly, for every input value, including
values outside [0, 100]. -/
theorem claim_C4_amended_no_clamp (id : String) (p : ℤ) (cats : List BudgetCategory)
    (c : BudgetCategory) (hc : c ∈ assignPercentage id p cats) (hid : c.id = id) :
    c.percentage = p := by
  simp only [assignPercentage, List.mem_map] at hc
  obtain ⟨c1, hc1, rfl⟩ := hc
  by_cases h1 : c1.id = id
  · simp [h1]
  · rw [if_neg h1] at hid
    exact absurd hid h1

/-- Witness for the amended C4: requesting 150 for Accommodation stores 150 verbatim. -/
theorem claim_C4_amended_witness :
    (⟨"1", "Accommodation", 0, 150⟩ : BudgetCategory).percentage = 150 :=
  claim_C4_amended_no_clamp "1" 150 initialCategories ⟨"1", "Accommodation", 0, 150⟩
    (by decide) (by decide)

/-- C4 counterexample: requesting 150 — a value above 100 — from the seeded defaults leaves
the edited category at 150 after step 1, outside [0, 100]: no clamping happens. -/
theorem claim_C4_counterexample :
    ((assignPercentage "1" 150 initialCategories).map (·.percentage))
      = [150, 25, 15, 15, 5, 5] ∧ ¬ ((150 : ℤ) ≤ 100) := by
  constructor
  · decide
  · decide

/-! ### Concrete scenarios and the budget / duration handlers -/

/-- C5 (Scenario A): from the seeded defaults with total budget 1000, setting Accommodation
to 50 gives a proportional pass of [50, 19, 12, 12, 4, 4] — Food & Drinks receives
round(25 · 50 / 65) = 19 — after which the −1 rounding residual is absorbed entirely by
Food & Drinks (the first non-edited category), the five non-edited categories sum to 50, and
the final percentages sum to exactly 100. -/
theorem claim_C5_scenarioA :
    ((proportionalAdjust "1" (assignPercentage "1" 50
        (runOps [BudgetOp.setBudget 1000] initialState).categories)).map (·.percentage)
      = [50, 19, 12, 12, 4, 4]) ∧
    ((runOps [BudgetOp.setBudget 1000, BudgetOp.setPct "1" 50] initialState).categories.map
        (fun c => (c.name, c.percentage))
      = [("Accommodation", 50), ("Food & Drinks", 18), ("Transportation", 12),
         ("Activities", 12), ("Shopping", 4), ("Miscellaneous", 4)]) ∧
    (sumPct (((runOps [BudgetOp.setBudget 1000, BudgetOp.setPct "1" 50]
        initialState).categories).filter (fun c => c.id != "1")) = 50) ∧
    sumPct (runOps [BudgetOp.setBudget 1000, BudgetOp.setPct "1" 50] initialState).categories
      = 100 := by
  refine ⟨?_, ?_, ?_, ?_⟩ <;> with_unfolding_all decide

/-- C6 amended: for every value, the budget handler stores the value as `totalBudget`
unchanged (no clamping), leaves every percentage unchanged, and recomputes every amount as
`Math.round(percentage / 100 * value)`; a zero value yields a zero amount for every category,
but a negative value is stored as-is and yields negative amounts, not zero. -/
theorem claim_C6_amended_budget_spec (v : ℤ) (s : PlannerState) :
    (handleBudgetChange v s).totalBudget = v ∧
    ((handleBudgetChange v s).categories.map (·.percentage)
      = s.categories.map (·.percentage)) ∧
    (∀ c ∈ (handleBudgetChange v s).categories,
      c.amount = jsRound ((c.percentage : ℚ) / 100 * (v : ℚ))) ∧
    (v = 0 → ∀ c ∈ (handleBudgetChange v s).categories, c.amount = 0) := by
  refine ⟨rfl, map_percentage_updateCategoryAmounts v s.categories, ?_, ?_⟩
  · intro c hc
    exact mem_updateCategoryAmounts hc
  · rintro rfl c hc
    have h1 := mem_updateCategoryAmounts hc
    have h2 : ((c.percentage : ℚ) / 100 * (((0 : ℤ) : ℚ))) = 0 := by
      push_cast
      ring
    rw [h1, h2]
    show jsRound 0 = 0
    with_unfolding_all rfl

/-- Witness for the amended C6: a zero budget stores 0 and leaves Accommodation's recomputed
amount at 0. -/
theorem claim_C6_amended_witness :
    (handleBudgetChange 0 initialState).totalBudget = 0 ∧
    (⟨"1", "Accommodation", 0, 35⟩ : BudgetCategory).amount = 0 :=
  ⟨(claim_C6_amended_budget_spec 0 initialState).1,
    (claim_C6_amended_budget_spec 0 initialState).2.2.2 rfl ⟨"1", "Accommodation", 0, 35⟩
      (by with_unfolding_all decide)⟩

/-- C6 counterexample: a negative parsed budget of −1000 is stored unclamped and yields the
negative amount −350 for Accommodation — not the zero amount the claim asserts for
zero-or-negative budgets. -/
theorem claim_C6_counterexample :
    (runOps [BudgetOp.setBudget (-1000)] initialState).totalBudget = -1000 ∧
    ((runOps [BudgetOp.setBudget (-1000)] initialState).categories.map (·.amount)
      = [-350, -250, -150, -150, -50, -50]) ∧
    ¬ ((-350 : ℤ) = 0) := by
  refine ⟨rfl, ?_, ?_⟩
  · with_unfolding_all decide
  · decide

/-- C7: an amount edit is a no-op when the total budget is at most 0 — in particular
(Scenario B) setting an amount of 500 on the seeded state, whose total budget is 0, leaves
the state unchanged — and otherwise its effect equals exactly that of a percentage edit with
`Math.round(newAmount / totalBudget * 100)`. -/
theorem claim_C7_amount_delegates :
    (runOps [BudgetOp.setAmt "1" 500] initialState = initialState) ∧
    ∀ (s : PlannerState) (id : String) (a : ℤ),
      handleAmountChange id a s =
        if s.totalBudget ≤ 0 then s
        else handlePercentageChange id (jsRound ((a : ℚ) / (s.totalBudget : ℚ) * 100)) s :=
  ⟨by decide, fun s id a => rfl⟩

/-- C8 amended: a parsed duration of 0 and an unparseable input both fall back to 1 (via
`parseInt(...) || 1`), the stored duration is never 0, and the per-day figure is
`Math.round(amount / duration)` — with amount 700 and duration 7 it is exactly 100; however a
negative parsed value is stored unchanged, so the divisor can be below 1. -/
theorem claim_C8_amended_duration (s : PlannerState) :
    ((handleDurationChange (some 0) s).duration = 1) ∧
    ((handleDurationChange none s).duration = 1) ∧
    (∀ n : ℤ, ¬ n = 0 → (handleDurationChange (some n) s).duration = n) ∧
    (∀ raw : Option ℤ, ¬ (handleDurationChange raw s).duration = 0) ∧
    dailyAmount 700 7 = 100 := by
  refine ⟨rfl, rfl, ?_, ?_, ?_⟩
  · intro n hn
    show parseIntOr 1 (some n) = n
    simp [parseIntOr, hn]
  · intro raw
    cases raw with
    | none =>
      show ¬ parseIntOr 1 none = 0
      decide
    | some n =>
      show ¬ parseIntOr 1 (some n) = 0
      simp only [parseIntOr]
      split_ifs with h0
      · decide
      · exact h0
  · with_unfolding_all decide

/-- Witness for the amended C8: a parsed duration of 9 is stored unchanged. -/
theorem claim_C8_amended_witness :
    (handleDurationChange (some 9) initialState).duration = 9 :=
  (claim_C8_amended_duration initialState).2.2.1 9 (by decide)

/-- C8 counterexample: the parsed duration −3 is below 1, yet it is stored as −3, not
treated as 1 — `parseInt(x) || 1` only catches 0 and NaN, not negative values. -/
theorem claim_C8_counterexample :
    (handleDurationChange (some (-3)) initialState).duration = -3 ∧
    ((-3 : ℤ) < 1) ∧ ¬ ((-3 : ℤ) = 1) := by
  refine ⟨by decide, by decide, by decide⟩

/-! ### Affordability tiers and the price-level filter -/

theorem thresholdsFor_low_le_high (category : String) :
    (thresholdsFor category).1 ≤ (thresholdsFor category).2 := by
  unfold thresholdsFor
  split_ifs <;> norm_num

/-- C9: the tier is a pure function of the per-day spend normalized to USD: strictly below the
category's low threshold is Budget, strictly above its high threshold is Luxury, otherwise
Standard, with pairs Accommodation 50/150, Food & Drinks 30/100, Transportation 10/50,
Activities 20/80 and the default 15/50 for any other name; for Accommodation, 40 a day is
Budget, 100 a day is Standard and 200 a day is Luxury. -/
theorem claim_C9_indicator_spec :
    (∀ (amount : ℚ) (category : String) (currency : CurrencyCode) (duration : ℚ),
      ((if currency = CurrencyCode.INR then amount / exchangeRateINR else amount) / duration
          < (thresholdsFor category).1 →
        (getBudgetLevelIndicator amount category currency duration).text = "Budget") ∧
      ((thresholdsFor category).2
          < (if currency = CurrencyCode.INR then amount / exchangeRateINR else amount) / duration →
        (getBudgetLevelIndicator amount category currency duration).text = "Luxury") ∧
      ((thresholdsFor category).1
          ≤ (if currency = CurrencyCode.INR then amount / exchangeRateINR else amount) / duration →
        (if currency = CurrencyCode.INR then amount / exchangeRateINR else amount) / duration
          ≤ (thresholdsFor category).2 →
        (getBudgetLevelIndicator amount category currency duration).text = "Standard")) ∧
    (thresholdsFor "Accommodation" = (50, 150) ∧ thresholdsFor "Food & Drinks" = (30, 100) ∧
      thresholdsFor "Transportation" = (10, 50) ∧ thresholdsFor "Activities" = (20, 80)) ∧
    (∀ category : String, ¬ category = "Accommodation" → ¬ category = "Food & Drinks" →
      ¬ category = "Transportation" → ¬ category = "Activities" →
      thresholdsFor category = (15, 50)) ∧
    ((getBudgetLevelIndicator 40 "Accommodation" CurrencyCode.USD 1).text = "Budget" ∧
      (getBudgetLevelIndicator 100 "Accommodation" CurrencyCode.USD 1).text = "Standard" ∧
      (getBudgetLevelIndicator 200 "Accommodation" CurrencyCode.USD 1).text = "Luxury") := by
  refine ⟨?_, ⟨rfl, rfl, rfl, rfl⟩, ?_, ?_, ?_, ?_⟩
  · intro amount category currency duration
    refine ⟨?_, ?_, ?_⟩
    · intro h
      simp only [getBudgetLevelIndicator]
      rw [if_pos h]
    · intro h
      have hle : (thresholdsFor category).1 ≤
          (if currency = CurrencyCode.INR then amount / exchangeRateINR else amount)
            / duration :=
        le_trans (thresholdsFor_low_le_high category) (le_of_lt h)
      simp only [getBudgetLevelIndicator]
      rw [if_neg (not_lt.mpr hle), if_pos h]
    · intro h1 h2
      simp only [getBudgetLevelIndicator]
      rw [if_neg (not_lt.mpr h1), if_neg (not_lt.mpr h2)]
  · intro category h1 h2 h3 h4
    unfold thresholdsFor
    rw [if_neg h1, if_neg h2, if_neg h3, if_neg h4]
  · with_unfolding_all rfl
  · with_unfolding_all rfl
  · with_unfolding_all rfl

/-- Witness for C9: an Accommodation daily spend of 45 USD lies strictly below the low
threshold 50 and is classified Budget. -/
theorem claim_C9_witness :
    (getBudgetLevelIndicator 45 "Accommodation" CurrencyCode.USD 1).text = "Budget" :=
  (claim_C9_indicator_spec.1 45 "Accommodation" CurrencyCode.USD 1).1 (by
    rw [if_neg (by decide : ¬ CurrencyCode.USD = CurrencyCode.INR)]
    norm_num [thresholdsFor])

/-- C10 (implicit): for every category set, duration and currency — including a zero or empty
activities budget — the derived affordable price level lies in {1, 2, 3} and is never 0, so
every place whose price level is 0 or 1 (an undefined level counting as 0) passes the
affordability filter. -/
theorem claim_C10_affordable_level (cats : List BudgetCategory) (duration : ℤ)
    (currency : CurrencyCode) (place : Place) :
    (1 ≤ affordablePriceLevel cats duration currency ∧
      affordablePriceLevel cats duration currency ≤ 3 ∧
      ¬ affordablePriceLevel cats duration currency = 0) ∧
    ((place.price_level.getD 0) ≤ 1 →
      passesAffordabilityFilter (affordablePriceLevel cats duration currency) place
        = true) := by
  have hb : 1 ≤ affordablePriceLevel cats duration currency ∧
      affordablePriceLevel cats duration currency ≤ 3 := by
    unfold affordablePriceLevel
    split_ifs <;> omega
  refine ⟨⟨hb.1, hb.2, ?_⟩, ?_⟩
  · have h1 := hb.1
    omega
  · intro hp
    unfold passesAffordabilityFilter
    simp only [decide_eq_true_eq]
    have h1 := hb.1
    omega

/-- Witness for C10: the sample City Museum place with price level 1 passes the filter for the
seeded categories with duration 7 in USD. -/
theorem claim_C10_witness :
    passesAffordabilityFilter (affordablePriceLevel initialCategories 7 CurrencyCode.USD)
      (⟨"2", "City Museum", "Museum", 43/10, "Cultural museum", "", some 1, none⟩ : Place)
      = true :=
  (claim_C10_affordable_level initialCategories 7 CurrencyCode.USD
    ⟨"2", "City Museum", "Museum", 43/10, "Cultural museum", "", some 1, none⟩).2 (by decide)
